import Mathlib

/-!
Verification development for the AFL++ process-supervisor core
(`afl_manager.py`, `file_monitor.py`): a shallow embedding of the
statistics parser, the crash-file monitor, the polling file watcher
and the process manager, together with theorems about their contracts.
-/

namespace AFLSpec

/-! ### A small regular-expression engine

`AFLOutputParser` uses a fixed table of Python regular expressions.  Every
pattern in that table is a sequence of literal characters, `\s*`-style starred
character classes, and captured `+`-classes, so we embed exactly that fragment:
greedy matching with backtracking, leftmost search, as `re.search` does. -/

/-- One element of a pattern: a literal character, a starred character class
(`\s*`), or a captured one-or-more character class (`([\d.]+)` etc.). -/
inductive RItem where
  | lit : Char → RItem
  | star : (Char → Bool) → RItem
  | grp : (Char → Bool) → RItem

/-- Python `\s` (the ASCII part, which is all AFL++ output uses). -/
def isSpaceCh (c : Char) : Bool :=
  c = ' ' || c = '\t' || c = '\n' || c = '\r' || c = '\x0b' || c = '\x0c'

def isDigitCh (c : Char) : Bool := '0' ≤ c && c ≤ '9'

/-- The class `[\d.]`. -/
def isDigitDot (c : Char) : Bool := isDigitCh c || c = '.'

/-- The class `[\d:]`. -/
def isDigitColon (c : Char) : Bool := isDigitCh c || c = ':'

/-- The class `[a-zA-Z\s]`. -/
def isAlphaSpaceCh (c : Char) : Bool :=
  ('a' ≤ c && c ≤ 'z') || ('A' ≤ c && c ≤ 'Z') || isSpaceCh c

/-- Length of the longest run of class characters at the head of the input. -/
def runLen (cls : Char → Bool) : List Char → Nat
  | [] => 0
  | c :: cs => if cls c then runLen cls cs + 1 else 0

/-- Greedy backtracking for a starred class: try consuming `k` characters,
longest first, then hand the rest to `next`. -/
def tryDrop (next : List Char → Option (List (List Char))) (s : List Char) :
    Nat → Option (List (List Char))
  | 0 => next s
  | Nat.succ k =>
    match next (s.drop (k + 1)) with
    | some caps => some caps
    | none => tryDrop next s k

/-- Greedy backtracking for a captured `+`-class: consume `k ≥ 1` characters,
longest first, record the capture, then hand the rest to `next`. -/
def tryCap (next : List Char → Option (List (List Char))) (s : List Char) :
    Nat → Option (List (List Char))
  | 0 => none
  | Nat.succ k =>
    match next (s.drop (k + 1)) with
    | some caps => some (s.take (k + 1) :: caps)
    | none => tryCap next s k

/-- Match a pattern against a prefix of the input, returning the list of
captured groups on success. -/
def matchAt : List RItem → List Char → Option (List (List Char))
  | [], _ => some []
  | RItem.lit _ :: _, [] => none
  | RItem.lit c :: ps, x :: xs => if x = c then matchAt ps xs else none
  | RItem.star cls :: ps, s => tryDrop (fun t => matchAt ps t) s (runLen cls s)
  | RItem.grp cls :: ps, s => tryCap (fun t => matchAt ps t) s (runLen cls s)

/-- `re.search`: try the pattern at every start position, leftmost first. -/
def searchFrom (p : List RItem) : List Char → Option (List (List Char))
  | [] => matchAt p []
  | c :: xs =>
    match matchAt p (c :: xs) with
    | some caps => some caps
    | none => searchFrom p xs

def reSearch (p : List RItem) (s : String) : Option (List (List Char)) :=
  searchFrom p s.data

/-- A string of literal items. -/
def lits (s : String) : List RItem := s.data.map RItem.lit

/-- `\s*`. -/
def ws : RItem := RItem.star isSpaceCh

/-! The twelve patterns of `AFLOutputParser.__init__`. -/

/-- `exec speed\s*:\s*([\d.]+)\s*/sec` -/
def patExecSpeed : List RItem :=
  lits "exec speed" ++ [ws] ++ lits ":" ++ [ws, RItem.grp isDigitDot, ws] ++ lits "/sec"

/-- `total execs\s*:\s*(\d+)` -/
def patTotalExecs : List RItem :=
  lits "total execs" ++ [ws] ++ lits ":" ++ [ws, RItem.grp isDigitCh]

/-- `paths : total:(\d+)` -/
def patPaths : List RItem := lits "paths : total:" ++ [RItem.grp isDigitCh]

/-- `crashes\s*:\s*(\d+)` -/
def patCrashes : List RItem :=
  lits "crashes" ++ [ws] ++ lits ":" ++ [ws, RItem.grp isDigitCh]

/-- `hangs\s*:\s*(\d+)` -/
def patHangs : List RItem :=
  lits "hangs" ++ [ws] ++ lits ":" ++ [ws, RItem.grp isDigitCh]

/-- `map coverage\s*:\s*([\d.]+)%` -/
def patCoverage : List RItem :=
  lits "map coverage" ++ [ws] ++ lits ":" ++ [ws, RItem.grp isDigitDot] ++ lits "%"

/-- `stability\s*:\s*([\d.]+)%` -/
def patStability : List RItem :=
  lits "stability" ++ [ws] ++ lits ":" ++ [ws, RItem.grp isDigitDot] ++ lits "%"

/-- `pending\s*:\s*(\d+)/(\d+)` -/
def patPending : List RItem :=
  lits "pending" ++ [ws] ++ lits ":" ++ [ws, RItem.grp isDigitCh] ++ lits "/"
    ++ [RItem.grp isDigitCh]

/-- `cycles done\s*:\s*(\d+)` -/
def patCycles : List RItem :=
  lits "cycles done" ++ [ws] ++ lits ":" ++ [ws, RItem.grp isDigitCh]

/-- `run time\s*:\s*([\d:]+)` -/
def patRunTime : List RItem :=
  lits "run time" ++ [ws] ++ lits ":" ++ [ws, RItem.grp isDigitColon]

/-- `last new find\s*:\s*([\d:]+)` -/
def patLastFind : List RItem :=
  lits "last new find" ++ [ws] ++ lits ":" ++ [ws, RItem.grp isDigitColon]

/-- `fuzzing state\s*:\s*([a-zA-Z\s]+)` -/
def patState : List RItem :=
  lits "fuzzing state" ++ [ws] ++ lits ":" ++ [ws, RItem.grp isAlphaSpaceCh]

/-! ### Parsed values and `parse_line` -/

/-- A value in the map returned by `AFLOutputParser.parse_line`: Python
`float` (modelled by `ℚ`, exact on the decimal literals involved), `int`,
or `str`. -/
inductive AFLValue where
  | f : ℚ → AFLValue
  | n : Nat → AFLValue
  | s : String → AFLValue
deriving DecidableEq, Repr

def digitVal (c : Char) : Nat := c.toNat - '0'.toNat

/-- Python `int` on a digit string. -/
def parseNatChars (cs : List Char) : Nat :=
  cs.foldl (fun a c => a * 10 + digitVal c) 0

/-- Split a character list at the first occurrence of `c`. -/
def splitAtChar (c : Char) : List Char → Option (List Char × List Char)
  | [] => none
  | x :: xs =>
    if x = c then some ([], xs)
    else (splitAtChar c xs).map (fun pr => (x :: pr.1, pr.2))

/-- Python `float` on a decimal literal `digits[.digits]` (exact as `ℚ`,
built with `mkRat` so the value is kernel-computable). -/
def parseQChars (cs : List Char) : ℚ :=
  match splitAtChar '.' cs with
  | none => mkRat (parseNatChars cs) 1
  | some (a, b) =>
    mkRat (parseNatChars a * 10 ^ b.length + parseNatChars b) (10 ^ b.length)

/-- Python `str.strip`. -/
def stripChars (cs : List Char) : List Char :=
  ((cs.dropWhile isSpaceCh).reverse.dropWhile isSpaceCh).reverse

def strip (s : String) : String := ⟨stripChars s.data⟩

/-- The pattern table of `AFLOutputParser.__init__`, in insertion order. -/
def patternTable : List (String × List RItem) :=
  [("exec_speed", patExecSpeed), ("total_execs", patTotalExecs),
   ("paths_found", patPaths), ("crashes", patCrashes), ("hangs", patHangs),
   ("coverage", patCoverage), ("stability", patStability),
   ("pending_fav", patPending), ("cycles_done", patCycles),
   ("run_time", patRunTime), ("last_find", patLastFind), ("state", patState)]

/-- Keys converted with `float(...)` in `parse_line`. -/
def floatKeys : List String := ["exec_speed", "coverage", "stability"]

/-- Keys converted with `int(...)` in `parse_line`. -/
def intKeys : List String :=
  ["total_execs", "paths_found", "crashes", "hangs", "cycles_done"]

def capAt (caps : List (List Char)) (i : Nat) : List Char := caps.getD i []

/-- The per-pattern entry written into `results` by `parse_line`: the
`pending_fav` pattern contributes two keys, float keys a `float`, int keys an
`int`, and the rest the stripped captured text. -/
def interpretMatch (key : String) (caps : List (List Char)) :
    List (String × AFLValue) :=
  if key = "pending_fav" then
    [("pending_fav", AFLValue.n (parseNatChars (capAt caps 0))),
     ("pending_total", AFLValue.n (parseNatChars (capAt caps 1)))]
  else if floatKeys.contains key then
    [(key, AFLValue.f (parseQChars (capAt caps 0)))]
  else if intKeys.contains key then
    [(key, AFLValue.n (parseNatChars (capAt caps 0)))]
  else
    [(key, AFLValue.s (strip ⟨capAt caps 0⟩))]

/-- `AFLOutputParser.parse_line`: run every pattern of the table against the
line and collect the extracted entries (the table's keys are pairwise
distinct, so the association list is the Python dict). -/
def parse_line (line : String) : List (String × AFLValue) :=
  patternTable.foldl
    (fun acc kp =>
      match reSearch kp.2 line with
      | none => acc
      | some caps => acc ++ interpretMatch kp.1 caps)
    []

/-! ### `AFLStats` and the two statistics-update paths -/

/-- The `AFLStats` dataclass with its field defaults (floats as `ℚ`). -/
structure AFLStats where
  exec_speed : ℚ := 0
  total_execs : Nat := 0
  paths_found : Nat := 0
  crashes_found : Nat := 0
  hangs_found : Nat := 0
  coverage : ℚ := 0
  stability : ℚ := 0
  pending_fav : Nat := 0
  pending_total : Nat := 0
  cycles_done : Nat := 0
  bitmap_cvg : ℚ := 0
  run_time : String := "00:00:00"
  last_find : String := "00:00:00"
deriving DecidableEq, Repr

def parseIntStr (s : String) : Nat := parseNatChars s.data

def parseFloatStr (s : String) : ℚ := parseQChars s.data

/-- Python `value.rstrip` of a percent sign. -/
def rstripPercent (s : String) : String :=
  ⟨(s.data.reverse.dropWhile (fun c => c = '%')).reverse⟩

/-- One line of the `fuzzer_stats` key:value dispatch inside
`AFLOutputParser.parse_fuzzer_stats` (lines without a colon are skipped). -/
def statsLineUpdate (st : AFLStats) (line : String) : AFLStats :=
  match splitAtChar ':' (stripChars line.data) with
  | none => st
  | some (k, v) =>
    let key := strip ⟨k⟩
    let value := strip ⟨v⟩
    if key = "execs_per_sec" then { st with exec_speed := parseFloatStr value }
    else if key = "total_execs" then { st with total_execs := parseIntStr value }
    else if key = "paths_total" then { st with paths_found := parseIntStr value }
    else if key = "saved_crashes" then { st with crashes_found := parseIntStr value }
    else if key = "saved_hangs" then { st with hangs_found := parseIntStr value }
    else if key = "map_coverage" then { st with coverage := parseFloatStr value }
    else if key = "stability" then
      { st with stability := parseFloatStr (rstripPercent value) }
    else if key = "pending_favs" then { st with pending_fav := parseIntStr value }
    else if key = "pending_total" then { st with pending_total := parseIntStr value }
    else if key = "cycles_done" then { st with cycles_done := parseIntStr value }
    else if key = "bitmap_cvg" then
      { st with bitmap_cvg := parseFloatStr (rstripPercent value) }
    else st

/-- `AFLOutputParser.parse_fuzzer_stats`: the stats file is modelled by its
list of lines; a missing file (`none`) yields the zero-value `AFLStats`. -/
def parse_fuzzer_stats (file : Option (List String)) : AFLStats :=
  match file with
  | none => {}
  | some lines => lines.foldl statsLineUpdate {}

/-- Auxiliary projections of an `AFLValue` onto a typed `AFLStats` field.
Python `setattr` is untyped; `parse_line` always supplies the variant that
matches the field it names, so a mismatched variant (which never occurs for
parser output) keeps the previous value. -/
def valQ (v : AFLValue) (old : ℚ) : ℚ :=
  match v with
  | AFLValue.f q => q
  | AFLValue.n k => (k : ℚ)
  | AFLValue.s _ => old

def valN (v : AFLValue) (old : Nat) : Nat :=
  match v with
  | AFLValue.n k => k
  | _ => old

def valS (v : AFLValue) (old : String) : String :=
  match v with
  | AFLValue.s t => t
  | _ => old

/-- `setattr(self.stats, key, value)` guarded by `hasattr(self.stats, key)`:
keys that are not `AFLStats` field names leave the snapshot unchanged. -/
def setattrIfExists (st : AFLStats) (key : String) (v : AFLValue) : AFLStats :=
  if key = "exec_speed" then { st with exec_speed := valQ v st.exec_speed }
  else if key = "total_execs" then { st with total_execs := valN v st.total_execs }
  else if key = "paths_found" then { st with paths_found := valN v st.paths_found }
  else if key = "crashes_found" then { st with crashes_found := valN v st.crashes_found }
  else if key = "hangs_found" then { st with hangs_found := valN v st.hangs_found }
  else if key = "coverage" then { st with coverage := valQ v st.coverage }
  else if key = "stability" then { st with stability := valQ v st.stability }
  else if key = "pending_fav" then { st with pending_fav := valN v st.pending_fav }
  else if key = "pending_total" then { st with pending_total := valN v st.pending_total }
  else if key = "cycles_done" then { st with cycles_done := valN v st.cycles_done }
  else if key = "bitmap_cvg" then { st with bitmap_cvg := valQ v st.bitmap_cvg }
  else if key = "run_time" then { st with run_time := valS v st.run_time }
  else if key = "last_find" then { st with last_find := valS v st.last_find }
  else st

/-- `AFLProcessManager._update_stats_from_output`: apply every parsed
key/value pair to the snapshot through the `hasattr` guard. -/
def update_stats_from_output (st : AFLStats) (parsed : List (String × AFLValue)) :
    AFLStats :=
  parsed.foldl (fun acc kv => setattrIfExists acc kv.1 kv.2) st

/-! ### File-system monitor: event types and the polling strategy -/

/-- `FileEventType` of `file_monitor.py`. -/
inductive FileEventType where
  | created
  | modified
  | deleted
  | moved
deriving DecidableEq, Repr, BEq

/-- An event emitted by one polling cycle (the path and its kind; the
wall-clock timestamp and the fresh `stat` size attached by the code are
environment reads that carry no information about the diffing logic). -/
structure PollEvent where
  etype : FileEventType
  path : String
deriving DecidableEq, Repr, BEq

/-- Keys of a snapshot (the `dict[Path, float]` of path to mtime, modelled
with `Nat` mtimes; only equality of mtimes is ever used). -/
def snapKeys (snap : List (String × Nat)) : List String := snap.map Prod.fst

/-- Python dict lookup on a snapshot. -/
def lookupSnap (snap : List (String × Nat)) (p : String) : Option Nat :=
  match snap with
  | [] => none
  | kv :: rest => if kv.1 = p then some kv.2 else lookupSnap rest p

/-- `FileSystemMonitor._check_polling_changes` for one watch key: given the
previous snapshot and the freshly enumerated current one, emit Created for
new paths, Modified for paths whose mtime changed (first loop, over the
current snapshot), then Deleted for vanished paths (second loop, over the
old snapshot), and store the current snapshot. -/
def pollNewEntry (old : List (String × Nat)) (pm : String × Nat) :
    Option PollEvent :=
  match lookupSnap old pm.1 with
  | none => some ⟨FileEventType.created, pm.1⟩
  | some m => if m ≠ pm.2 then some ⟨FileEventType.modified, pm.1⟩ else none

def pollGoneEntry (current : List (String × Nat)) (pm : String × Nat) :
    Option PollEvent :=
  match lookupSnap current pm.1 with
  | none => some ⟨FileEventType.deleted, pm.1⟩
  | some _ => none

def check_polling_changes (old current : List (String × Nat)) :
    List PollEvent × List (String × Nat) :=
  (current.filterMap (pollNewEntry old) ++ old.filterMap (pollGoneEntry current),
   current)

/-! ### Strings: containment and the crash-artifact naming convention -/

/-- `needle in hay` on character lists (Python `in` on strings). -/
def containsSub : List Char → List Char → Bool
  | [], needle => needle.isEmpty
  | c :: t, needle => needle.isPrefixOf (c :: t) || containsSub t needle

def strHas (s sub : String) : Bool := containsSub s.data sub.data

/-- Python `str.startswith`. -/
def strStarts (s pat : String) : Bool := pat.data.isPrefixOf s.data

/-- A file-system path, split as Python's `Path.parent` / `Path.name`. -/
structure PathT where
  parent : String
  name : String
deriving DecidableEq, Repr, BEq

def PathT.full (p : PathT) : String := p.parent ++ "/" ++ p.name

/-- A directory entry as seen by `Path.glob` / `Path.iterdir`. -/
structure DirEnt where
  name : String
  isFile : Bool
deriving DecidableEq, Repr, BEq

/-- The artifact filter of `AFLCrashMonitor._update_crash_files`: a regular
file matching the glob `id:*` whose name does not contain `README`. -/
def isCrashEnt (e : DirEnt) : Bool :=
  e.isFile && strStarts e.name "id:" && !(strHas e.name "README")

/-- `AFLCrashMonitor._update_crash_files`: clear the set and re-scan the
crashes directory (modelled by its entry list) for crash artifacts. -/
def update_crash_files (crashes_dir : String) (disk : List DirEnt) : List PathT :=
  (disk.filter isCrashEnt).map (fun e => ⟨crashes_dir, e.name⟩)

/-- Python `set.add` on the de-duplicated artifact list. -/
def insertPath (l : List PathT) (p : PathT) : List PathT :=
  if l.contains p then l else l ++ [p]

/-- The state of an `AFLCrashMonitor`. -/
structure CMState where
  crashes_dir : String
  crash_files : List PathT
  monitoring : Bool
deriving DecidableEq, Repr

/-- `AFLCrashMonitor.get_crash_files`. -/
def CMState.get_crash_files (c : CMState) : List PathT := c.crash_files

/-- `AFLCrashMonitor.get_crash_count`. -/
def CMState.get_crash_count (c : CMState) : Nat := c.crash_files.length

/-- A `FileEvent` delivered to `AFLCrashMonitor._handle_file_event`. -/
structure FEvent where
  etype : FileEventType
  path : PathT
  is_directory : Bool
deriving DecidableEq, Repr, BEq

/-- The filter of `AFLCrashMonitor._handle_file_event`: a Created event for a
non-directory under the crashes directory whose name starts with `id:` and
does not contain `README`. -/
def matchesCrashEvent (dir : String) (e : FEvent) : Bool :=
  (e.etype == FileEventType.created) && !e.is_directory
    && strStarts e.path.full dir
    && strStarts e.path.name "id:" && !(strHas e.path.name "README")

/-! ### The process manager (`AFLProcessManager`) -/

/-- `AFLFuzzingState`. -/
inductive AFLFuzzingState where
  | INITIALIZING
  | STARTING
  | RUNNING
  | EXPLORING
  | FINAL_PHASE
  | FINISHED
  | ERROR
  | TERMINATED
deriving DecidableEq, Repr, BEq

/-- `.value` of the Python enum. -/
def AFLFuzzingState.value : AFLFuzzingState → String
  | .INITIALIZING => "initializing"
  | .STARTING => "starting"
  | .RUNNING => "running"
  | .EXPLORING => "exploring"
  | .FINAL_PHASE => "final_phase"
  | .FINISHED => "finished"
  | .ERROR => "error"
  | .TERMINATED => "terminated"

/-- The child handle (`subprocess.Popen`): pid and `poll()` result, where
`none` means the child is still running. -/
structure ProcInfo where
  pid : Nat
  poll : Option Int
deriving DecidableEq, Repr

/-- The mutable state of an `AFLProcessManager`. -/
structure MState where
  output_dir : String
  target_binary : String
  input_dir : String
  timeout : Nat
  memory_limit : String
  process : Option ProcInfo
  state : AFLFuzzingState
  stats : AFLStats
  stop_monitoring : Bool
  crash_monitor : Option CMState
  crash_files_count : Nat
  crash_event : Bool
  first_crash_detected : Bool
deriving DecidableEq, Repr

/-- `self.process and self.process.poll() is None`. -/
def processAlive (s : MState) : Bool :=
  match s.process with
  | none => false
  | some p => p.poll.isNone

/-- The crashes directory `output_dir / 'default' / 'crashes'`. -/
def crashesDirOf (s : MState) : String := s.output_dir ++ "/default/crashes"

/-- `AFLProcessManager._start_crash_monitoring`: an eager initial directory
scan (`_update_crash_files`) followed by starting the watcher; on a start
failure the monitor is dropped and the backup detection path is used.  The
scan invokes no callback and leaves the crash latch untouched. -/
def start_crash_monitoring (s : MState) (disk : List DirEnt) (startOk : Bool) :
    MState :=
  if startOk then
    let cm : CMState := ⟨crashesDirOf s, update_crash_files (crashesDirOf s) disk, true⟩
    { s with crash_monitor := some cm }
  else { s with crash_monitor := none }

/-- `AFLProcessManager.start_fuzzing`: refuse if a child is already alive;
otherwise spawn (`spawn = none` models a `Popen` failure, which sets state
`ERROR`), clear the monitor-thread stop flag, and start crash monitoring with
the eager scan of `disk`. -/
def start_fuzzing (s : MState) (spawn : Option ProcInfo) (disk : List DirEnt)
    (monitorOk : Bool) : Bool × MState :=
  if processAlive s then (false, s)
  else
    match spawn with
    | none => (false, { s with state := AFLFuzzingState.ERROR })
    | some p =>
      let s1 := { s with process := some p
                         state := AFLFuzzingState.STARTING
                         stop_monitoring := false }
      (true, start_crash_monitoring s1 disk monitorOk)

/-- `AFLProcessManager.stop_fuzzing`: no-op `false` without a process handle;
otherwise signal the monitor threads, drop the crash monitor, kill the child
process group (`exitCode` is the exit status the subsequent `wait` observes),
and set state `TERMINATED`.  The crash latch is never touched. -/
def stop_fuzzing (s : MState) (graceful : Bool) (exitCode : Int) : Bool × MState :=
  match s.process with
  | none => (false, s)
  | some p =>
    let s1 := { s with stop_monitoring := true, crash_monitor := none }
    let s2 := { s1 with process := some { p with poll := some exitCode } }
    (true, { s2 with state := AFLFuzzingState.TERMINATED })

/-- `AFLProcessManager.get_crashes`: prefer the crash monitor's set; with no
active monitor fall back to a sorted one-shot scan of the crashes directory
for `id:*` regular files not named `README*`. -/
def pathLe (a b : PathT) : Bool :=
  let rec go : List Char → List Char → Bool
    | [], _ => true
    | _ :: _, [] => false
    | x :: xs, y :: ys => if x = y then go xs ys else decide (x < y)
  go a.full.data b.full.data

def insertSorted (p : PathT) : List PathT → List PathT
  | [] => [p]
  | q :: qs => if pathLe p q then p :: q :: qs else q :: insertSorted p qs

def sortPaths (l : List PathT) : List PathT := l.foldr insertSorted []

def get_crashes (s : MState) (disk : List DirEnt) : List PathT :=
  match s.crash_monitor with
  | some cm => cm.get_crash_files
  | none =>
    sortPaths
      ((disk.filter (fun e =>
          e.isFile && strStarts e.name "id:" && !(strStarts e.name "README"))).map
        (fun e => ⟨crashesDirOf s, e.name⟩))

/-- `AFLProcessManager._on_crash_files_changed`: on net growth of the
artifact set, set the one-shot crash latch on the first detection, invoke the
external `on_crash_found` callback (the returned list records the counts it
was called with), and remember the new count. -/
def on_crash_files_changed (s : MState) (crash_files : List PathT) :
    MState × List Nat :=
  let new_count := crash_files.length
  if s.crash_files_count < new_count then
    let s1 :=
      if !s.first_crash_detected then
        { s with first_crash_detected := true, crash_event := true }
      else s
    ({ s1 with crash_files_count := new_count }, [new_count])
  else (s, [])

/-- `AFLCrashMonitor._handle_file_event` wired to the manager callback: a
matching Created event inserts the path into the de-duplicated set and hands
the full current set to `_on_crash_files_changed`; everything else is
ignored. -/
def handle_file_event (s : MState) (e : FEvent) : MState × List Nat :=
  match s.crash_monitor with
  | none => (s, [])
  | some cm =>
    if matchesCrashEvent cm.crashes_dir e then
      let cm' := { cm with crash_files := insertPath cm.crash_files e.path }
      on_crash_files_changed { s with crash_monitor := some cm' } cm'.crash_files
    else (s, [])

/-- The result dictionary of `AFLProcessManager.wait_for_crash`. -/
structure WaitResult where
  crashed : Bool
  crash_count : Nat
  crash_files : List String
  wait_time : ℚ
  state : String
  reason : String
  error : Option String := none
deriving DecidableEq, Repr

/-- Python truthiness of the optional `timeout` float, as used by
`'timeout' if timeout else 'interrupted'`: `None` and `0.0` are falsy. -/
def pyTruthy (t : Option ℚ) : Bool :=
  match t with
  | none => false
  | some q => if q = 0 then false else true

/-- `threading.Event.wait` for one arm-and-wait cycle in which `fired` says
whether the latch is set before the wait ends: a set latch yields `true`; an
unset latch returns `false` once a finite timeout expires, and never returns
(`none`) when no timeout was given. -/
def eventWait (timeout : Option ℚ) (fired : Bool) : Option Bool :=
  if fired then some true
  else
    match timeout with
    | some _ => some false
    | none => none

/-- `AFLProcessManager.wait_for_crash`: with no live child, return the
`not_running` result immediately; otherwise clear and re-arm the latch, block
on it (`eventWait`), and report the current crash set with the appropriate
reason.  `disk` models the fallback directory scan of `get_crashes`,
`elapsed` the measured wait time; `none` is the call that never returns. -/
def wait_for_crash (s : MState) (disk : List DirEnt) (timeout : Option ℚ)
    (fired : Bool) (elapsed : ℚ) : Option WaitResult :=
  if !processAlive s then
    some { crashed := false, crash_count := 0, crash_files := [], wait_time := 0,
           state := s.state.value, reason := "not_running",
           error := some "AFL++进程未运行或已终止" }
  else
    match eventWait timeout fired with
    | none => none
    | some crashed =>
      let crashes := get_crashes s disk
      if crashed then
        some { crashed := true, crash_count := crashes.length,
               crash_files := crashes.map PathT.full, wait_time := elapsed,
               state := s.state.value, reason := "crash_detected" }
      else
        some { crashed := false, crash_count := crashes.length,
               crash_files := crashes.map PathT.full, wait_time := elapsed,
               state := s.state.value,
               reason := if pyTruthy timeout then "timeout" else "interrupted" }

/-- Floor of a rational, computed on its normalized numerator and (positive)
denominator with Euclidean division. -/
def ratFloor (q : ℚ) : Int := q.num.ediv (q.den : Int)

/-- Python `'{:.1f}'.format` on the `ℚ` model of the throughput float:
`round(q * 10)` split into its decimal digits (the rounding mode at the
discarded digits is immaterial to the properties below). -/
def fmt1 (q : ℚ) : String :=
  let scaled : Int := (20 * q.num + (q.den : Int)).ediv (2 * (q.den : Int))
  toString (scaled.ediv 10) ++ "." ++ toString ((scaled.emod 10).natAbs)

/-- `AFLProcessManager.get_progress_message`, with `now` the value of
`time.time()` (nonnegative, so Python `int` truncation is the floor): the
state-dependent message list plus the `[T:…|E:…]` uniqueness suffix, joined
with `' | '`. -/
def get_progress_message (s : MState) (now : ℚ) : String :=
  let base : List String :=
    match s.state with
    | AFLFuzzingState.STARTING => ["AFL++正在初始化模糊测试环境..."]
    | AFLFuzzingState.RUNNING =>
      let crash_count :=
        match s.crash_monitor with
        | some cm => cm.get_crash_count
        | none => s.stats.crashes_found
      ["AFL++运行中 - 执行速度: " ++ fmt1 s.stats.exec_speed ++ "/秒",
       "已发现 " ++ toString s.stats.paths_found ++ " 个路径"]
        ++ (if 0 < crash_count then ["发现 " ++ toString crash_count ++ " 个崩溃"] else [])
    | AFLFuzzingState.EXPLORING => ["AFL++正在探索新的执行路径..."]
    | AFLFuzzingState.FINAL_PHASE => ["AFL++进入最终优化阶段"]
    | AFLFuzzingState.FINISHED => ["AFL++模糊测试已完成"]
    | st => ["AFL++状态: " ++ st.value]
  let timestamp : Int := (ratFloor now).emod 1000
  let exec_count : Nat := s.stats.total_execs % 1000
  String.intercalate " | "
    (base ++ ["[T:" ++ toString timestamp ++ "|E:" ++ toString exec_count ++ "]"])

/-! ### Derived predicates used in the statements -/

/-- Whether the event passes the `_handle_file_event` filter of the manager's
current crash monitor (false when no monitor is active). -/
def crashEventMatches (s : MState) (e : FEvent) : Bool :=
  match s.crash_monitor with
  | some cm => matchesCrashEvent cm.crashes_dir e
  | none => false

/-- Whether delivering the event would make the artifact set larger than the
manager's remembered count (false when no monitor is active). -/
def crashEventGrows (s : MState) (e : FEvent) : Bool :=
  match s.crash_monitor with
  | some cm => decide (s.crash_files_count < (insertPath cm.crash_files e.path).length)
  | none => false

/-! ### Concrete states used by witnesses and counterexamples -/

/-- A freshly constructed manager (`__init__` state: no process, state
`INITIALIZING`, zero statistics, no monitor, latch unset). -/
def baseState : MState :=
  { output_dir := "/tmp/out", target_binary := "./t", input_dir := "/tmp/in",
    timeout := 300, memory_limit := "200", process := none,
    state := AFLFuzzingState.INITIALIZING, stats := {}, stop_monitoring := false,
    crash_monitor := none, crash_files_count := 0, crash_event := false,
    first_crash_detected := false }

/-- A manager whose child is alive (`poll()` returns `None`). -/
def runningState : MState := { baseState with process := some ⟨4242, none⟩ }

/-- A running manager in state `STARTING`. -/
def startingState : MState :=
  { runningState with state := AFLFuzzingState.STARTING }

/-- A crash monitor that has durably observed one artifact. -/
def oneCrashMonitor : CMState :=
  ⟨"/tmp/out/default/crashes", [⟨"/tmp/out/default/crashes", "id:000000,sig:11"⟩], true⟩

/-- A manager whose child has exited (`poll()` returned `0`) while its crash
monitor still holds one observed artifact: the child exiting on its own does
not clear `_crash_monitor`, so this state is reached by starting a session,
observing one crash file, and letting the child exit. -/
def exitedWithCrashState : MState :=
  { baseState with process := some ⟨99, some 0⟩,
                   crash_monitor := some oneCrashMonitor,
                   crash_files_count := 1 }

/-- A live manager with the same one-artifact monitor. -/
def runningWithCrashState : MState :=
  { runningState with crash_monitor := some oneCrashMonitor,
                      crash_files_count := 1 }

/-! ### C1 — `stop_fuzzing` and a blocked waiter -/

/-- C1, counterexample: `stop_fuzzing` on a live session completes
successfully (`true`) yet leaves the crash latch unset, so a waiter blocked in
`wait_for_crash` with no timeout (released only when the latch is set) is not
released by teardown — the claimed forced wake does not exist in the code. -/
theorem stop_fuzzing_leaves_waiter_blocked_cex :
    (stop_fuzzing runningState true (-9)).1 = true
    ∧ ((stop_fuzzing runningState true (-9)).2).crash_event = false :=
  ⟨rfl, rfl⟩

/-- C1, amended: `stop_fuzzing` never touches the crash latch — it is
preserved exactly.  A waiter with a finite timeout returns only when that
timeout expires (reason `timeout`), and a waiter without a timeout is not
released by `Stop` at all. -/
theorem stop_fuzzing_preserves_crash_event (s : MState) (graceful : Bool)
    (exitCode : Int) :
    ((stop_fuzzing s graceful exitCode).2).crash_event = s.crash_event := by
  rcases hp : s.process with _ | p <;> simp [stop_fuzzing, hp]

/-! ### C2 — `wait_for_crash` with no live child -/

/-- C2: whenever no child is alive (no handle, or `poll()` reports an exit),
`wait_for_crash` returns immediately — independently of the timeout and of
the latch — with `crashed = false`, `crash_count = 0`, empty `crash_files`,
and reason `not_running`. -/
theorem wait_for_crash_not_running (s : MState) (disk : List DirEnt)
    (timeout : Option ℚ) (fired : Bool) (elapsed : ℚ)
    (h : processAlive s = false) :
    wait_for_crash s disk timeout fired elapsed =
      some { crashed := false, crash_count := 0, crash_files := [], wait_time := 0,
             state := s.state.value, reason := "not_running",
             error := some "AFL++进程未运行或已终止" } := by
  unfold wait_for_crash
  simp [h]

/-- C2, witness at a manager that never started a child. -/
theorem wait_for_crash_not_running_witness :
    processAlive baseState = false
    ∧ wait_for_crash baseState [] (some (mkRat 5 1)) false 0 =
        some { crashed := false, crash_count := 0, crash_files := [], wait_time := 0,
               state := baseState.state.value, reason := "not_running",
               error := some "AFL++进程未运行或已终止" } :=
  ⟨rfl, wait_for_crash_not_running baseState [] (some (mkRat 5 1)) false 0 rfl⟩

/-! ### C3 — `start_fuzzing` while a child is alive -/

/-- C3: a second `start_fuzzing` while the child is still alive returns
`false` and returns the state entirely unchanged — same handle, same session
state, same monitors — so one supervisor owns at most one child. -/
theorem start_fuzzing_rejects_live (s : MState) (spawn : Option ProcInfo)
    (disk : List DirEnt) (monitorOk : Bool) (h : processAlive s = true) :
    start_fuzzing s spawn disk monitorOk = (false, s) := by
  unfold start_fuzzing
  simp [h]

/-- C3, witness at a live manager. -/
theorem start_fuzzing_rejects_live_witness :
    processAlive runningState = true
    ∧ start_fuzzing runningState (some ⟨4343, none⟩) [] true = (false, runningState) :=
  ⟨rfl, start_fuzzing_rejects_live runningState (some ⟨4343, none⟩) [] true rfl⟩

/-! ### C4 — reasons reported when the latch never fires -/

/-- C4, counterexample: with the specified timeout value `T = 0` and the
latch never firing, `wait_for_crash` reports reason `interrupted`, not the
claimed `timeout` — Python truthiness (`'timeout' if timeout else
'interrupted'`) treats `0` like `None`. -/
theorem wait_for_crash_zero_timeout_cex :
    (wait_for_crash runningState [] (some (mkRat 0 1)) false 0).map WaitResult.reason
        = some "interrupted"
    ∧ ¬ ((wait_for_crash runningState [] (some (mkRat 0 1)) false 0).map WaitResult.reason
        = some "timeout") :=
  ⟨rfl, by decide⟩

/-- C4, amended: on a live child with the latch never firing, a *non-zero*
specified timeout yields `crashed = false` with reason `timeout`; a specified
timeout of `0` yields reason `interrupted`; and with no timeout the call never
returns at all (`threading.Event.wait(None)` only returns once set). -/
theorem wait_for_crash_no_crash_reasons (s : MState) (disk : List DirEnt)
    (elapsed : ℚ) (T : ℚ) (halive : processAlive s = true) (hT : T ≠ 0) :
    (wait_for_crash s disk (some T) false elapsed).map
        (fun r => (r.crashed, r.reason)) = some (false, "timeout")
    ∧ (wait_for_crash s disk (some 0) false elapsed).map
        (fun r => (r.crashed, r.reason)) = some (false, "interrupted")
    ∧ wait_for_crash s disk none false elapsed = none := by
  unfold wait_for_crash eventWait pyTruthy
  refine ⟨?_, ?_, ?_⟩ <;> simp [halive, hT]

/-- C4, witness at a live manager with `T = 1`. -/
theorem wait_for_crash_no_crash_reasons_witness :
    processAlive runningState = true
    ∧ (mkRat 1 1 : ℚ) ≠ 0
    ∧ ((wait_for_crash runningState [] (some (mkRat 1 1)) false 0).map
          (fun r => (r.crashed, r.reason)) = some (false, "timeout")
        ∧ (wait_for_crash runningState [] (some 0) false 0).map
            (fun r => (r.crashed, r.reason)) = some (false, "interrupted")
        ∧ wait_for_crash runningState [] none false 0 = none) :=
  ⟨rfl, by decide,
   wait_for_crash_no_crash_reasons runningState [] 0 (mkRat 1 1) rfl (by decide)⟩

/-! ### C5 — repeated `get_progress_message` calls -/

/-- C5, counterexample: two calls at distinct instants inside the same
wall-clock second (`time.time()` values `10` and `10.5`) with unchanged state
and statistics return byte-identical strings — `int(time.time()) % 1000` and
`total_execs % 1000` are both unchanged, so the claimed always-varying suffix
does not vary. -/
theorem get_progress_message_identical_cex :
    (mkRat 10 1 : ℚ) ≠ mkRat 21 2
    ∧ get_progress_message startingState (mkRat 10 1)
        = get_progress_message startingState (mkRat 21 2) :=
  ⟨by decide, rfl⟩

/-- C5, amended: the message depends on the call time only through
`int(time.time()) % 1000`, so two calls in the same state whose times agree on
that component (in particular any two calls within the same second, or `1000`
seconds apart) return byte-identical output; the suffix varies only when the
second-counter or execution-counter component changes. -/
theorem get_progress_message_same_second (s : MState) (t1 t2 : ℚ)
    (h : (ratFloor t1).emod 1000 = (ratFloor t2).emod 1000) :
    get_progress_message s t1 = get_progress_message s t2 := by
  unfold get_progress_message
  rw [h]

/-- C5, witness: the instants `10` and `10.5` share the timestamp
component. -/
theorem get_progress_message_same_second_witness :
    (ratFloor (mkRat 10 1)).emod 1000 = (ratFloor (mkRat 21 2)).emod 1000
    ∧ get_progress_message startingState (mkRat 10 1)
        = get_progress_message startingState (mkRat 21 2) :=
  ⟨rfl, get_progress_message_same_second startingState (mkRat 10 1) (mkRat 21 2) rfl⟩

/-! ### C6 — reported crash counts versus the watcher's observed set -/

/-- C6, counterexample: in the reachable state where the child has exited
while the crash monitor holds one observed artifact, `wait_for_crash` reports
`crash_count = 0`, which is *not* `≥` the monitor's durably observed count of
`1` — the `not_running` early return hard-codes zero. -/
theorem wait_for_crash_underreports_cex :
    (wait_for_crash exitedWithCrashState [] (some (mkRat 1 1)) false 0).map
        WaitResult.crash_count = some 0
    ∧ oneCrashMonitor.get_crash_count = 1
    ∧ ¬ (0 ≥ oneCrashMonitor.get_crash_count) :=
  ⟨rfl, rfl, by decide⟩

/-- C6, amended: with an active crash monitor, `get_crashes` returns exactly
the monitor's de-duplicated set (so its size equals — in particular is at
least — the observed count), and every result a `wait_for_crash` call on a
*live* child returns reports that same count; only the `not_running`/`error`
immediate returns report a hard-coded `0` regardless of the monitor's set. -/
theorem reported_count_matches_monitor (s : MState) (disk : List DirEnt)
    (cm : CMState) (t : Option ℚ) (fired : Bool) (elapsed : ℚ) (r : WaitResult)
    (hm : s.crash_monitor = some cm) (halive : processAlive s = true)
    (hr : wait_for_crash s disk t fired elapsed = some r) :
    (get_crashes s disk).length = cm.get_crash_count
    ∧ r.crash_count = cm.get_crash_count := by
  have hgc : get_crashes s disk = cm.crash_files := by
    simp [get_crashes, hm, CMState.get_crash_files]
  refine ⟨by simp [hgc, CMState.get_crash_count], ?_⟩
  unfold wait_for_crash at hr
  simp [halive] at hr
  rcases hw : eventWait t fired with _ | crashed
  · simp [hw] at hr
  · rw [hw] at hr
    rcases crashed <;> simp at hr <;> rw [← hr] <;>
      simp [hgc, CMState.get_crash_count]

/-- C6, witness at a live manager with a one-artifact monitor and an expired
one-second timeout. -/
theorem reported_count_matches_monitor_witness :
    runningWithCrashState.crash_monitor = some oneCrashMonitor
    ∧ processAlive runningWithCrashState = true
    ∧ wait_for_crash runningWithCrashState [] (some (mkRat 1 1)) false 0 =
        some { crashed := false, crash_count := 1,
               crash_files := ["/tmp/out/default/crashes/id:000000,sig:11"],
               wait_time := 0, state := "initializing", reason := "timeout" }
    ∧ ((get_crashes runningWithCrashState []).length = oneCrashMonitor.get_crash_count
        ∧ ({ crashed := false, crash_count := 1,
             crash_files := ["/tmp/out/default/crashes/id:000000,sig:11"],
             wait_time := 0, state := "initializing",
             reason := "timeout" } : WaitResult).crash_count
          = oneCrashMonitor.get_crash_count) :=
  ⟨rfl, rfl, rfl,
   reported_count_matches_monitor runningWithCrashState [] oneCrashMonitor
     (some (mkRat 1 1)) false 0 _ rfl rfl rfl⟩

/-! ### C7 — parser examples -/

/-- C7: `parse_line "exec speed : 1234.5/sec"` maps `exec_speed` to the float
`1234.5` (the rational `mkRat 2469 2`); `parse_line "paths : total:567"` maps
`paths_found` to `567`; and `parse_fuzzer_stats` on a file with lines
`execs_per_sec : 1000.0` and `saved_crashes : 5` yields statistics with
`exec_speed = 1000.0` and `crashes_found = 5`. -/
theorem parse_examples :
    List.lookup "exec_speed" (parse_line "exec speed : 1234.5/sec")
        = some (AFLValue.f (mkRat 2469 2))
    ∧ List.lookup "paths_found" (parse_line "paths : total:567")
        = some (AFLValue.n 567)
    ∧ (parse_fuzzer_stats (some ["execs_per_sec : 1000.0", "saved_crashes : 5"])).exec_speed
        = mkRat 1000 1
    ∧ (parse_fuzzer_stats (some ["execs_per_sec : 1000.0", "saved_crashes : 5"])).crashes_found
        = 5 :=
  ⟨rfl, rfl, rfl, rfl⟩

/-! ### C9 — initial scan versus latch-setting Created events -/

/-- C9: a crash artifact already on disk when monitoring starts is picked up
by the eager initial scan of `_start_crash_monitoring` and so appears in
`get_crash_files`, but the scan leaves the supervisor's crash latch (and the
first-detection flag) untouched and invokes no callback; the latch is set by
`_handle_file_event` exactly when a Created event passes the artifact filter,
makes the observed set larger than the manager's remembered count, and no
first crash had been detected yet. -/
theorem crash_latch_only_from_created_events (s : MState) (disk : List DirEnt)
    (ok : Bool) (e : FEvent) (ent : DirEnt)
    (hent : ent ∈ disk) (hcrash : isCrashEnt ent = true) :
    (start_crash_monitoring s disk ok).crash_event = s.crash_event
    ∧ (start_crash_monitoring s disk ok).first_crash_detected = s.first_crash_detected
    ∧ (⟨crashesDirOf s, ent.name⟩ : PathT) ∈
        ((start_crash_monitoring s disk true).crash_monitor.map
          CMState.get_crash_files).getD []
    ∧ (handle_file_event s e).1.crash_event
        = (s.crash_event
            || (crashEventMatches s e && crashEventGrows s e && !s.first_crash_detected)) := by
  refine ⟨?_, ?_, ?_, ?_⟩
  · rcases ok <;> simp [start_crash_monitoring]
  · rcases ok <;> simp [start_crash_monitoring]
  · simp only [start_crash_monitoring, if_pos, Option.map_some, Option.getD_some,
      CMState.get_crash_files, update_crash_files]
    exact List.mem_map.mpr ⟨ent, List.mem_filter.mpr ⟨hent, hcrash⟩, rfl⟩
  · rcases hm : s.crash_monitor with _ | cm
    · simp [handle_file_event, crashEventMatches, hm]
    · by_cases hmat : matchesCrashEvent cm.crashes_dir e
      · by_cases hg :
          s.crash_files_count < (insertPath cm.crash_files e.path).length
        · by_cases hf : s.first_crash_detected <;>
            simp [handle_file_event, on_crash_files_changed, crashEventMatches,
              crashEventGrows, hm, hmat, hg, hf]
        · simp [handle_file_event, on_crash_files_changed, crashEventMatches,
            crashEventGrows, hm, hmat, hg]
      · simp [handle_file_event, crashEventMatches, hm, hmat]

/-- C9, witness: a pre-existing artifact `id:000000,sig:4` on disk, and a
Created event for a fresh artifact on a live monitored session. -/
theorem crash_latch_only_from_created_events_witness :
    (⟨"id:000000,sig:4", true⟩ : DirEnt) ∈ [(⟨"id:000000,sig:4", true⟩ : DirEnt)]
    ∧ isCrashEnt ⟨"id:000000,sig:4", true⟩ = true
    ∧ ((start_crash_monitoring runningState [⟨"id:000000,sig:4", true⟩] true).crash_event
          = runningState.crash_event
        ∧ (start_crash_monitoring runningState [⟨"id:000000,sig:4", true⟩] true).first_crash_detected
            = runningState.first_crash_detected
        ∧ (⟨crashesDirOf runningState, "id:000000,sig:4"⟩ : PathT) ∈
            ((start_crash_monitoring runningState [⟨"id:000000,sig:4", true⟩] true).crash_monitor.map
              CMState.get_crash_files).getD []
        ∧ (handle_file_event runningState
              ⟨FileEventType.created, ⟨"/tmp/out/default/crashes", "id:000001,sig:11"⟩, false⟩).1.crash_event
            = (runningState.crash_event
                || (crashEventMatches runningState
                      ⟨FileEventType.created, ⟨"/tmp/out/default/crashes", "id:000001,sig:11"⟩, false⟩
                    && crashEventGrows runningState
                        ⟨FileEventType.created, ⟨"/tmp/out/default/crashes", "id:000001,sig:11"⟩, false⟩
                    && !runningState.first_crash_detected))) :=
  ⟨List.mem_singleton.mpr rfl, rfl,
   crash_latch_only_from_created_events runningState [⟨"id:000000,sig:4", true⟩] true
     ⟨FileEventType.created, ⟨"/tmp/out/default/crashes", "id:000001,sig:11"⟩, false⟩
     ⟨"id:000000,sig:4", true⟩ (List.mem_singleton.mpr rfl) rfl⟩

/-! ### C8 — one polling cycle of the polling watch strategy -/

theorem snapKeys_cons (kv : String × Nat) (rest : List (String × Nat)) :
    snapKeys (kv :: rest) = kv.1 :: snapKeys rest := rfl

theorem lookupSnap_eq_none_iff (snap : List (String × Nat)) (p : String) :
    lookupSnap snap p = none ↔ p ∉ snapKeys snap := by
  induction snap with
  | nil => simp [lookupSnap, snapKeys]
  | cons kv rest ih =>
    by_cases h : kv.1 = p
    · simp [lookupSnap, snapKeys_cons, h]
    · have h' : ¬ p = kv.1 := fun hq => h hq.symm
      simp only [lookupSnap, if_neg h, snapKeys_cons, List.mem_cons, ih, not_or]
      simp [h']

theorem mem_snapKeys_of_mem (snap : List (String × Nat)) (p : String) (m : Nat)
    (hm : (p, m) ∈ snap) : p ∈ snapKeys snap :=
  List.mem_map_of_mem Prod.fst hm

theorem lookupSnap_mem (snap : List (String × Nat)) (p : String) (m : Nat)
    (hnd : (snapKeys snap).Nodup) (hm : (p, m) ∈ snap) :
    lookupSnap snap p = some m := by
  induction snap with
  | nil => simp at hm
  | cons kv rest ih =>
    rcases List.nodup_cons.mp hnd with ⟨hk, hnd'⟩
    rcases List.mem_cons.mp hm with h | h
    · simp [lookupSnap, ← h]
    · have hne : kv.1 ≠ p := fun he => hk (he ▸ mem_snapKeys_of_mem rest p m h)
      simp [lookupSnap, hne, ih hnd' h]

theorem lookupSnap_some_mem (snap : List (String × Nat)) (p : String) (m : Nat)
    (h : lookupSnap snap p = some m) : (p, m) ∈ snap := by
  induction snap with
  | nil => simp [lookupSnap] at h
  | cons kv rest ih =>
    by_cases hk : kv.1 = p
    · simp [lookupSnap, hk] at h
      exact List.mem_cons.mpr (Or.inl (by rw [← hk, ← h]))
    · simp [lookupSnap, hk] at h
      exact List.mem_cons.mpr (Or.inr (ih h))

theorem filterMap_filter_of_no_key (f : String × Nat → Option PollEvent)
    (hf : ∀ pm ev, f pm = some ev → ev.path = pm.1)
    (l : List (String × Nat)) (p : String) (hp : p ∉ snapKeys l) :
    (l.filterMap f).filter (fun ev => ev.path == p) = [] := by
  induction l with
  | nil => rfl
  | cons kv rest ih =>
    have hk : ¬(kv.1 = p) := fun he =>
      hp (snapKeys_cons kv rest ▸ List.mem_cons.mpr (Or.inl he.symm))
    have hp' : p ∉ snapKeys rest := fun he =>
      hp (snapKeys_cons kv rest ▸ List.mem_cons.mpr (Or.inr he))
    cases hg : f kv with
    | none => simpa [List.filterMap_cons, hg] using ih hp'
    | some ev =>
      have hpath : ev.path = kv.1 := hf kv ev hg
      simp [List.filterMap_cons, hg, List.filter_cons, hpath, hk, ih hp']

theorem filterMap_filter_of_unique_key (f : String × Nat → Option PollEvent)
    (hf : ∀ pm ev, f pm = some ev → ev.path = pm.1)
    (l : List (String × Nat)) (p : String) (m : Nat)
    (hnd : (snapKeys l).Nodup) (hm : (p, m) ∈ l) :
    (l.filterMap f).filter (fun ev => ev.path == p) = (f (p, m)).toList := by
  induction l with
  | nil => simp at hm
  | cons kv rest ih =>
    rcases List.nodup_cons.mp hnd with ⟨hk, hnd'⟩
    rcases List.mem_cons.mp hm with h | h
    · subst h
      have hrest : (rest.filterMap f).filter (fun ev => ev.path == p) = [] :=
        filterMap_filter_of_no_key f hf rest p hk
      cases hg : f (p, m) with
      | none => simpa [List.filterMap_cons, hg] using hrest
      | some ev =>
        have hpath : ev.path = p := hf (p, m) ev hg
        simp [List.filterMap_cons, hg, List.filter_cons, hpath, hrest]
    · have hne : kv.1 ≠ p := fun he => hk (he ▸ mem_snapKeys_of_mem rest p m h)
      cases hg : f kv with
      | none => simpa [List.filterMap_cons, hg] using ih hnd' h
      | some ev =>
        have hpath : ev.path = kv.1 := hf kv ev hg
        simp [List.filterMap_cons, hg, List.filter_cons, hpath, hne, ih hnd' h]

theorem pollNewEntry_path (old : List (String × Nat)) (pm : String × Nat)
    (ev : PollEvent) (h : pollNewEntry old pm = some ev) : ev.path = pm.1 := by
  unfold pollNewEntry at h
  rcases hl : lookupSnap old pm.1 with _ | m <;> rw [hl] at h
  · exact (Option.some.injEq _ _ ▸ h) ▸ rfl
  · by_cases hm : m ≠ pm.2 <;> simp [hm] at h
    rw [← h]

theorem pollGoneEntry_path (current : List (String × Nat)) (pm : String × Nat)
    (ev : PollEvent) (h : pollGoneEntry current pm = some ev) : ev.path = pm.1 := by
  unfold pollGoneEntry at h
  rcases hl : lookupSnap current pm.1 with _ | m <;> rw [hl] at h
  · rw [← Option.some.inj h]
  · exact absurd h (by simp)

/-- C8: one polling cycle.  With snapshots whose keys are unique (they are
Python dicts), a path present only in the current snapshot produces exactly
one event, a `Created`; a path present in both snapshots with a different
mtime produces exactly one event, a `Modified`; a path present only in the
old snapshot produces exactly one event, a `Deleted`; and the stored snapshot
afterwards is the current one. -/
theorem check_polling_changes_spec (old current : List (String × Nat))
    (p1 : String) (m1 : Nat) (p2 : String) (m2 m2' : Nat) (p3 : String) (m3 : Nat)
    (ho : (snapKeys old).Nodup) (hc : (snapKeys current).Nodup)
    (h1 : (p1, m1) ∈ current) (h2 : lookupSnap old p1 = none)
    (h3 : (p2, m2) ∈ current) (h4 : lookupSnap old p2 = some m2') (h5 : m2' ≠ m2)
    (h6 : (p3, m3) ∈ old) (h7 : lookupSnap current p3 = none) :
    (check_polling_changes old current).1.filter (fun ev => ev.path == p1)
        = [⟨FileEventType.created, p1⟩]
    ∧ (check_polling_changes old current).1.filter (fun ev => ev.path == p2)
        = [⟨FileEventType.modified, p2⟩]
    ∧ (check_polling_changes old current).1.filter (fun ev => ev.path == p3)
        = [⟨FileEventType.deleted, p3⟩]
    ∧ (check_polling_changes old current).2 = current := by
  refine ⟨?_, ?_, ?_, rfl⟩
  · have hcm := filterMap_filter_of_unique_key (pollNewEntry old)
      (pollNewEntry_path old) current p1 m1 hc h1
    have hdel := filterMap_filter_of_no_key (pollGoneEntry current)
      (pollGoneEntry_path current) old p1 ((lookupSnap_eq_none_iff old p1).mp h2)
    simp [check_polling_changes, List.filter_append, hcm, hdel, pollNewEntry, h2]
  · have hcm := filterMap_filter_of_unique_key (pollNewEntry old)
      (pollNewEntry_path old) current p2 m2 hc h3
    have hdel := filterMap_filter_of_unique_key (pollGoneEntry current)
      (pollGoneEntry_path current) old p2 m2' ho (lookupSnap_some_mem old p2 m2' h4)
    have hcur : lookupSnap current p2 = some m2 := lookupSnap_mem current p2 m2 hc h3
    simp [check_polling_changes, List.filter_append, hcm, hdel, pollNewEntry,
      pollGoneEntry, h4, h5, hcur]
  · have hcm := filterMap_filter_of_no_key (pollNewEntry old)
      (pollNewEntry_path old) current p3 ((lookupSnap_eq_none_iff current p3).mp h7)
    have hdel := filterMap_filter_of_unique_key (pollGoneEntry current)
      (pollGoneEntry_path current) old p3 m3 ho h6
    simp [check_polling_changes, List.filter_append, hcm, hdel, pollGoneEntry, h7]

/-- C8, witness: old snapshot `b ↦ 1, c ↦ 5`, current snapshot
`a ↦ 3, b ↦ 2`: `a` is created, `b` modified, `c` deleted. -/
theorem check_polling_changes_spec_witness :
    ((snapKeys [("b", 1), ("c", 5)]).Nodup ∧ (snapKeys [("a", 3), ("b", 2)]).Nodup
      ∧ ("a", 3) ∈ [("a", 3), ("b", 2)] ∧ lookupSnap [("b", 1), ("c", 5)] "a" = none
      ∧ ("b", 2) ∈ [("a", 3), ("b", 2)] ∧ lookupSnap [("b", 1), ("c", 5)] "b" = some 1
      ∧ (1 : Nat) ≠ 2 ∧ ("c", 5) ∈ [("b", 1), ("c", 5)]
      ∧ lookupSnap [("a", 3), ("b", 2)] "c" = none)
    ∧ ((check_polling_changes [("b", 1), ("c", 5)] [("a", 3), ("b", 2)]).1.filter
          (fun ev => ev.path == "a") = [⟨FileEventType.created, "a"⟩]
        ∧ (check_polling_changes [("b", 1), ("c", 5)] [("a", 3), ("b", 2)]).1.filter
            (fun ev => ev.path == "b") = [⟨FileEventType.modified, "b"⟩]
        ∧ (check_polling_changes [("b", 1), ("c", 5)] [("a", 3), ("b", 2)]).1.filter
            (fun ev => ev.path == "c") = [⟨FileEventType.deleted, "c"⟩]
        ∧ (check_polling_changes [("b", 1), ("c", 5)] [("a", 3), ("b", 2)]).2
            = [("a", 3), ("b", 2)]) :=
  ⟨⟨by decide, by decide, by decide, rfl, by decide, rfl, by decide, by decide, rfl⟩,
   check_polling_changes_spec [("b", 1), ("c", 5)] [("a", 3), ("b", 2)]
     "a" 3 "b" 2 1 "c" 5 (by decide) (by decide) (by decide) rfl (by decide) rfl
     (by decide) (by decide) rfl⟩

/-! ### C10 — output-line parsing never changes crash/hang counts -/

/-- The keys `parse_line` can ever emit: the table keys plus
`pending_total`.  Neither `crashes_found` nor `hangs_found` is among them. -/
def outputKeys : List String :=
  ["exec_speed", "total_execs", "paths_found", "crashes", "hangs", "coverage",
   "stability", "pending_fav", "pending_total", "cycles_done", "run_time",
   "last_find", "state"]

theorem interpretMatch_keys (key : String) (caps : List (List Char))
    (kv : String × AFLValue) (hkv : kv ∈ interpretMatch key caps) :
    kv.1 = key ∨ kv.1 = "pending_total" := by
  unfold interpretMatch at hkv
  split_ifs at hkv with h1 h2 h3
  · rcases List.mem_cons.mp hkv with h | h
    · exact Or.inl (by simp [h, h1])
    · exact Or.inr (by simp [List.mem_singleton.mp h])
  · exact Or.inl (by simp [List.mem_singleton.mp hkv])
  · exact Or.inl (by simp [List.mem_singleton.mp hkv])
  · exact Or.inl (by simp [List.mem_singleton.mp hkv])

theorem parse_line_keys_aux (tbl : List (String × List RItem)) (line : String)
    (acc : List (String × AFLValue))
    (hacc : ∀ kv ∈ acc, kv.1 ∈ outputKeys)
    (htbl : ∀ e ∈ tbl, e.1 ∈ outputKeys) :
    ∀ kv ∈ tbl.foldl
        (fun acc kp =>
          match reSearch kp.2 line with
          | none => acc
          | some caps => acc ++ interpretMatch kp.1 caps)
        acc,
      kv.1 ∈ outputKeys := by
  induction tbl generalizing acc with
  | nil => exact hacc
  | cons e rest ih =>
    intro kv hkv
    rw [List.foldl_cons] at hkv
    refine ih _ ?_ (fun x hx => htbl x (List.mem_cons.mpr (Or.inr hx))) kv hkv
    intro kv' hkv'
    rcases hr : reSearch e.2 line with _ | caps <;> simp only [hr] at hkv'
    · exact hacc kv' hkv'
    · rcases List.mem_append.mp hkv' with h | h
      · exact hacc kv' h
      · rcases interpretMatch_keys e.1 caps kv' h with h1 | h1
        · rw [h1]; exact htbl e (List.mem_cons.mpr (Or.inl rfl))
        · rw [h1]; decide

theorem parse_line_keys (line : String) (kv : String × AFLValue)
    (hkv : kv ∈ parse_line line) : kv.1 ∈ outputKeys := by
  refine parse_line_keys_aux patternTable line [] (by simp) ?_ kv hkv
  intro e he
  simp only [patternTable, List.mem_cons, List.not_mem_nil, or_false] at he
  rcases he with h|h|h|h|h|h|h|h|h|h|h|h <;> rw [h] <;> decide

theorem setattrIfExists_outputKey (st : AFLStats) (key : String) (v : AFLValue)
    (hk : key ∈ outputKeys) :
    (setattrIfExists st key v).crashes_found = st.crashes_found
    ∧ (setattrIfExists st key v).hangs_found = st.hangs_found := by
  simp only [outputKeys, List.mem_cons, List.not_mem_nil, or_false] at hk
  rcases hk with h|h|h|h|h|h|h|h|h|h|h|h|h <;> subst h <;> exact ⟨rfl, rfl⟩

theorem update_stats_preserves (st : AFLStats) (l : List (String × AFLValue))
    (h : ∀ kv ∈ l, kv.1 ∈ outputKeys) :
    (update_stats_from_output st l).crashes_found = st.crashes_found
    ∧ (update_stats_from_output st l).hangs_found = st.hangs_found := by
  induction l generalizing st with
  | nil => exact ⟨rfl, rfl⟩
  | cons kv rest ih =>
    have hh := setattrIfExists_outputKey st kv.1 kv.2
      (h kv (List.mem_cons.mpr (Or.inl rfl)))
    have hr := ih (setattrIfExists st kv.1 kv.2)
      (fun x hx => h x (List.mem_cons.mpr (Or.inr hx)))
    have hcons : update_stats_from_output st (kv :: rest)
        = update_stats_from_output (setattrIfExists st kv.1 kv.2) rest := rfl
    exact ⟨by rw [hcons, hr.1, hh.1], by rw [hcons, hr.2, hh.2]⟩

/-- C10: for every output line, applying the parsed map to the statistics
snapshot through `_update_stats_from_output` leaves `crashes_found` and
`hangs_found` unchanged — the parser emits the keys `crashes` and `hangs`,
which fail the `hasattr` guard against the `AFLStats` field names, so
output-line parsing never changes the crash or hang counts. -/
theorem output_update_ignores_crashes_hangs (st : AFLStats) (line : String) :
    (update_stats_from_output st (parse_line line)).crashes_found = st.crashes_found
    ∧ (update_stats_from_output st (parse_line line)).hangs_found = st.hangs_found :=
  update_stats_preserves st (parse_line line) (fun kv hkv => parse_line_keys line kv hkv)

end AFLSpec
